import Mathlib

/-!
Shallow embedding of the webpack configuration factory of
`Octavian-imp/webpack-template` (file `src/unnamed/part_000`, the
multi-variant factory `module.exports = (env) => ...`), together with
theorems settling the specification claims about it.

Modelling conventions:
* loader strings stay strings; the css-loader object form and the
  babel-loader object form become dedicated constructors of `UseEntry`;
* `MiniCssExtractPlugin.loader` is the string `"MiniCssExtractPlugin.loader"`;
* regexes are kept as their source strings;
* plugin instances become symbolic `Plugin` values carrying the options
  actually passed in the source;
* the `env` object passed by the webpack CLI is a record with the two
  fields the factory reads (`MODE`, `PORT`) plus a list of other entries
  it never touches;
* `env.PORT || 3000` keeps JavaScript truthiness on numbers: a supplied
  `0` is falsy and falls back to `3000`.
-/

namespace WebpackTemplate

/-- Options object passed to `css-loader` when the `css-modules` preset is
requested (source lines 64–74). -/
structure CssModulesOptions where
  auto : String
  namedExport : Bool
  exportLocalsConvention : String
  localIdentName : String
deriving DecidableEq, Repr

/-- Babel options: the object `{ presets: [...] }` built by `getBabelOpts`. -/
structure BabelOpts where
  presets : List String
deriving DecidableEq, Repr

/-- One entry of a rule's `use` array: a plain loader string, the
`css-loader`-with-modules object, or the `babel-loader` object. -/
inductive UseEntry where
  | str : String → UseEntry
  | cssLoaderWithModules : CssModulesOptions → UseEntry
  | babel : BabelOpts → UseEntry
deriving DecidableEq, Repr

/-- One webpack module rule (an element of `config.rules`). -/
structure Rule where
  test : String
  type : Option String := none
  generatorFilename : Option String := none
  exclude : Option String := none
  use : List UseEntry := []
deriving DecidableEq, Repr

/-- The optimization object built by `getOptimization`: `splitChunks.chunks`
is always `"all"`; `minimizer` is only set in production. -/
structure Optimization where
  splitChunksChunks : String
  minimizer : Option (List String) := none
deriving DecidableEq, Repr

/-- A plugin instance from the `plugins` array, with the options the source
passes to its constructor. -/
inductive Plugin where
  | htmlWebpack (template : String) (collapseWhitespace removeComments : Bool)
  | cleanWebpack
  | miniCssExtract (filename : String)
  | dotenv
deriving DecidableEq, Repr

/-- The `devServer` object (source lines 212–224). -/
structure DevServer where
  staticDirectory : String
  port : Nat
  openBrowser : Bool
  hot : Bool
  compress : Bool
  historyApiFallback : Bool
  clientProgress : Bool
deriving DecidableEq, Repr

/-- One configuration object of the returned array. -/
structure Config where
  name : String
  context : String
  entry : List String
  mode : String
  outputFilename : String
  outputPath : String
  resolveExtensions : List String
  resolveAlias : List (String × String)
  performanceHints : Bool
  maxEntrypointSize : Nat
  maxAssetSize : Nat
  devServer : DevServer
  optimization : Optimization
  plugins : List Plugin
  module : List Rule
deriving DecidableEq, Repr

/-- The `env` object handed to the factory: the two fields the factory
reads, plus any other environment entries (never read). -/
structure Env where
  MODE : Option String := none
  PORT : Option Nat := none
  extra : List (String × String) := []
deriving DecidableEq, Repr

/-- `const isDev = env.MODE === "development" || env.MODE === "dev"`. -/
def isDev (e : Env) : Bool :=
  e.MODE == some "development" || e.MODE == some "dev"

/-- `const PORT = env.PORT || 3000`: JavaScript `||` falls back on any falsy
value, so an absent port and a supplied `0` both give `3000`. -/
def portOrDefault (e : Env) : Nat :=
  match e.PORT with
  | none => 3000
  | some p => if p = 0 then 3000 else p

/-- `getBabelOpts(...preset)`: presets start as `["@babel/preset-env"]` and
the provided presets are appended (appending nothing when none are given). -/
def getBabelOpts (preset : List String) : BabelOpts :=
  { presets := ["@babel/preset-env"] ++ preset }

/-- `getOptimization()`: `splitChunks.chunks = "all"` always; in production
(`!isDev`) a `TerserWebpackPlugin` minimizer is added. -/
def getOptimization (d : Bool) : Optimization :=
  { splitChunksChunks := "all"
    minimizer := if !d then some ["TerserWebpackPlugin"] else none }

/-- The options object the source passes to `css-loader` under
`css-modules` (source lines 66–73). -/
def cssModulesOptions : CssModulesOptions :=
  { auto := "\\.module\\.\\w+"
    namedExport := false
    exportLocalsConvention := "as-is"
    localIdentName := "[folder]__[local]___[hash:base64:5]" }

/-- `getStyleLoaders(...preset)` (source lines 61–86): first
`style-loader` (dev) or `MiniCssExtractPlugin.loader` (prod); then
`css-loader` — the modules-configured object when `"css-modules"` is among
the presets, the plain string otherwise; then `postcss-loader` when
`"tailwind"` is present; then `sass-loader` when `"scss"` is present. -/
def getStyleLoaders (d : Bool) (preset : List String) : List UseEntry :=
  [if d then UseEntry.str "style-loader" else UseEntry.str "MiniCssExtractPlugin.loader"]
  ++ [if preset.contains "css-modules"
      then UseEntry.cssLoaderWithModules cssModulesOptions
      else UseEntry.str "css-loader"]
  ++ (if preset.contains "tailwind" then [UseEntry.str "postcss-loader"] else [])
  ++ (if preset.contains "scss" then [UseEntry.str "sass-loader"] else [])

/-- Body of `getModuleRules` with every `findIndex(...) !== -1` membership
test hoisted into a boolean parameter (`tw` = tailwind, `cm` = css-modules,
`sc` = scss, `xm` = xml, `cv` = csv, `ts` = ts, `re` = react). -/
def getModuleRulesB (d tw cm sc xm cv ts re : Bool) : List Rule :=
  let stylesPreset : List String :=
    (if tw then ["tailwind"] else []) ++ (if cm then ["css-modules"] else [])
  [ { test := "\\.css$", use := getStyleLoaders d stylesPreset },
    { test := "\\.(png|svg|jpg|jpeg|gif)$", type := some "asset/resource",
      generatorFilename := some "assets/[name][ext]" },
    { test := "\\.(ttf|woff|eot|woff2)$", type := some "asset/resource",
      generatorFilename := some "assets/fonts/[name][ext]" },
    { test := "\\.js$", exclude := some "node_modules",
      use := [UseEntry.babel (getBabelOpts [])] } ]
  ++ (if sc then
        [ { test := "\\.s[ac]ss$",
            use := getStyleLoaders d (stylesPreset ++ ["scss"]) } ]
      else [])
  ++ (if xm then [ { test := "\\.xml$", use := [UseEntry.str "xml-loader"] } ] else [])
  ++ (if cv then [ { test := "\\.csv$", use := [UseEntry.str "csv-loader"] } ] else [])
  ++ (if ts then
        [ { test := "\\.ts$", exclude := some "node_modules",
            use := [UseEntry.babel (getBabelOpts ["@babel/preset-typescript"])] } ]
      else [])
  ++ (if re then
        [ { test := "\\.[jt]sx$", exclude := some "node_modules",
            use := [UseEntry.babel (getBabelOpts
              (["@babel/preset-react"]
               ++ (if ts then ["@babel/preset-typescript"] else []))) ] } ]
      else [])

/-- `getModuleRules(...addSupportFiles)` (source lines 95–189): the four
always-present rules (stylesheet `.css`, images, fonts, `.js` scripts)
followed by the conditionally pushed rules, in source order
(scss, xml, csv, ts, react). `tailwind` and `css-modules` only feed the
`stylesPreset` list passed to `getStyleLoaders`. -/
def getModuleRules (d : Bool) (addSupportFiles : List String) : List Rule :=
  getModuleRulesB d
    (addSupportFiles.contains "tailwind")
    (addSupportFiles.contains "css-modules")
    (addSupportFiles.contains "scss")
    (addSupportFiles.contains "xml")
    (addSupportFiles.contains "csv")
    (addSupportFiles.contains "ts")
    (addSupportFiles.contains "react")

/-- `mainConfigOptions` (source lines 191–251), as a function of the
derived `isDev` flag and resolved port. -/
def mainConfigOptionsB (d : Bool) (port : Nat) : Config :=
  { name := ""
    context := "__dirname/src"
    entry := ["@babel/polyfill", "./index.js"]
    mode := if d then "development" else "production"
    outputFilename := "[name].[hash].js"
    outputPath := "__dirname/dist"
    resolveExtensions := [".js", ".scss", ".css"]
    resolveAlias := [("@", "__dirname/src")]
    performanceHints := false
    maxEntrypointSize := 512000
    maxAssetSize := 512000
    devServer :=
      { staticDirectory := "__dirname/dist"
        port := port
        openBrowser := true
        hot := true
        compress := true
        historyApiFallback := true
        clientProgress := true }
    optimization := getOptimization d
    plugins :=
      [ Plugin.htmlWebpack "./index.html" (!d) (!d),
        Plugin.cleanWebpack,
        Plugin.miniCssExtract "[name].[hash].css",
        Plugin.dotenv ]
    module := getModuleRules d ["scss"] }

/-- The array of four named variants returned by the factory
(source lines 253–297), as a function of `isDev` and the resolved port. -/
def webpackConfigB (d : Bool) (port : Nat) : List Config :=
  [ { mainConfigOptionsB d port with
        name := "html-scss-js"
        entry := ["@babel/polyfill", "./index.js"] },
    { mainConfigOptionsB d port with
        name := "html-scss-js-tailwind"
        entry := ["@babel/polyfill", "./index.js"]
        module := getModuleRules d ["scss", "tailwind"] },
    { mainConfigOptionsB d port with
        name := "react-ts-scss-cssModules"
        entry := ["@babel/polyfill", "./index.tsx"]
        resolveExtensions := [".js", ".jsx", ".ts", ".tsx", ".scss", ".css"]
        resolveAlias := [("@", "__dirname/src")]
        module := getModuleRules d ["scss", "react", "ts", "css-modules"] },
    { mainConfigOptionsB d port with
        name := "react-ts-scss-cssModules-tailwind"
        entry := ["@babel/polyfill", "./index.tsx"]
        resolveExtensions := [".js", ".jsx", ".ts", ".tsx", ".scss", ".css"]
        resolveAlias := [("@", "__dirname/src")]
        module := getModuleRules d ["scss", "react", "ts", "css-modules", "tailwind"] } ]

/-- `module.exports = (env) => ...`: the whole factory. `MODE_DEV` in the
source is `isDev ?? "development"`; `isDev` is always a boolean, so `??`
never fires and `MODE_DEV` equals `isDev`. -/
def webpackConfig (e : Env) : List Config :=
  webpackConfigB (isDev e) (portOrDefault e)

/-- A development environment with no port, used in concrete instances. -/
def envDev : Env := { MODE := some "development" }

/-- The first returned variant ("html-scss-js") as a function of the
derived mode flag and resolved port. -/
def variant1 (d : Bool) (port : Nat) : Config :=
  { mainConfigOptionsB d port with
      name := "html-scss-js"
      entry := ["@babel/polyfill", "./index.js"] }

/-- All babel presets occurring in a rule's `use` chain, in order. -/
def rulePresets (r : Rule) : List String :=
  r.use.foldr
    (fun en acc =>
      match en with
      | UseEntry.babel o => o.presets ++ acc
      | _ => acc)
    []

/-- Appending an element different from `x` does not change a `contains x`
membership test. -/
theorem contains_append_ne (S : List String) (u x : String) (hx : x ≠ u) :
    (S ++ [u]).contains x = S.contains x := by
  simp [List.contains, List.elem_eq_mem, List.mem_append, hx]

/-- C1 (amended): the module-rule table always starts with the four default
rules (stylesheet `.css`, image assets, font assets, `.js` scripts) and its
length is four plus one per rule-appending flag among scss, xml, csv, ts
and react; tailwind and css-modules append no rule. -/
theorem getModuleRules_default_rules_and_count (d : Bool) (S : List String) :
    ((getModuleRules d S).take 4).map Rule.test
        = ["\\.css$", "\\.(png|svg|jpg|jpeg|gif)$",
           "\\.(ttf|woff|eot|woff2)$", "\\.js$"]
    ∧ (getModuleRules d S).length
        = 4 + ((if S.contains "scss" then 1 else 0)
             + (if S.contains "xml" then 1 else 0)
             + (if S.contains "csv" then 1 else 0)
             + (if S.contains "ts" then 1 else 0)
             + (if S.contains "react" then 1 else 0)) := by
  unfold getModuleRules
  generalize S.contains "tailwind" = tw
  generalize S.contains "css-modules" = cm
  generalize S.contains "scss" = sc
  generalize S.contains "xml" = xm
  generalize S.contains "csv" = cv
  generalize S.contains "ts" = ts
  generalize S.contains "react" = re
  revert d tw cm sc xm cv ts re
  decide

/-- C1 counterexample: with the empty flag set the module-rule table has
four rules (the always-present `.css` stylesheet rule is the fourth kind of
default rule), not the three the claim predicts. -/
theorem getModuleRules_empty_not_three : (getModuleRules false []).length ≠ 3 := by
  decide

/-- C5: the factory is deterministic and reads only the `MODE` and `PORT`
fields of its environment input; two environments agreeing on those two
fields (whatever other entries they carry) produce structurally identical
configuration arrays. -/
theorem webpackConfig_deterministic (e₁ e₂ : Env)
    (hm : e₁.MODE = e₂.MODE) (hp : e₁.PORT = e₂.PORT) :
    webpackConfig e₁ = webpackConfig e₂ := by
  unfold webpackConfig isDev portOrDefault
  rw [hm, hp]

/-- C5 witness: two concrete environments with equal `MODE`/`PORT` but
different extra entries yield identical configuration arrays. -/
theorem webpackConfig_deterministic_witness :
    webpackConfig { MODE := some "dev", PORT := some 4000, extra := [("SECRET", "1")] }
      = webpackConfig { MODE := some "dev", PORT := some 4000 } :=
  webpackConfig_deterministic _ _ rfl rfl

/-- C6: a flag outside the recognized set
scss/tailwind/css-modules/xml/csv/ts/react is silently ignored: adding it
to any flag list leaves the module-rule table unchanged. -/
theorem getModuleRules_unknown_flag_ignored (d : Bool) (S : List String) (u : String)
    (hu : u ∉ ["scss", "tailwind", "css-modules", "xml", "csv", "ts", "react"]) :
    getModuleRules d (S ++ [u]) = getModuleRules d S := by
  simp only [List.mem_cons, List.mem_singleton, not_or] at hu
  obtain ⟨h1, h2, h3, h4, h5, h6, h7, -⟩ := hu
  unfold getModuleRules
  rw [contains_append_ne S u "tailwind" (Ne.symm h2),
      contains_append_ne S u "css-modules" (Ne.symm h3),
      contains_append_ne S u "scss" (Ne.symm h1),
      contains_append_ne S u "xml" (Ne.symm h4),
      contains_append_ne S u "csv" (Ne.symm h5),
      contains_append_ne S u "ts" (Ne.symm h6),
      contains_append_ne S u "react" (Ne.symm h7)]

/-- C6 witness: the unrecognized flag "coffee" added to the scss flag list
changes nothing. -/
theorem getModuleRules_unknown_flag_ignored_witness :
    ("coffee" ∉ ["scss", "tailwind", "css-modules", "xml", "csv", "ts", "react"])
    ∧ getModuleRules false (["scss"] ++ ["coffee"]) = getModuleRules false ["scss"] :=
  ⟨by decide, getModuleRules_unknown_flag_ignored false ["scss"] "coffee" (by decide)⟩

/-- C2: in every configuration the factory produces, development mode comes
with no minimizer and production mode always carries one (the optimization
object never depends on the flag set, only on the mode). -/
theorem mode_controls_minimizer (e : Env) (c : Config) (hc : c ∈ webpackConfig e) :
    (c.mode = "development" → c.optimization.minimizer = none)
    ∧ (c.mode = "production" → c.optimization.minimizer ≠ none) := by
  unfold webpackConfig at hc
  generalize isDev e = d at hc
  generalize portOrDefault e = p at hc
  cases d <;>
    simp only [webpackConfigB, List.mem_cons, List.not_mem_nil, or_false] at hc <;>
    rcases hc with rfl | rfl | rfl | rfl <;>
    simp [mainConfigOptionsB, getOptimization]

/-- C2 witness: the first development variant has mode "development" and no
minimizer. -/
theorem mode_controls_minimizer_witness :
    (variant1 true 3000 ∈ webpackConfig envDev)
    ∧ ((variant1 true 3000).mode = "development" →
          (variant1 true 3000).optimization.minimizer = none)
    ∧ ((variant1 true 3000).mode = "production" →
          (variant1 true 3000).optimization.minimizer ≠ none) :=
  ⟨by decide,
   (mode_controls_minimizer envDev (variant1 true 3000) (by decide)).1,
   (mode_controls_minimizer envDev (variant1 true 3000) (by decide)).2⟩

/-- C3 counterexample: with flags = scss in production the module-rule
table has five rules, not the four (image, font, script, stylesheet) the
claim lists — the always-present `.css` stylesheet rule is the fifth. -/
theorem scss_prod_rule_table_not_four : (getModuleRules false ["scss"]).length ≠ 4 := by
  decide

/-- C3 (amended): with flags = scss and production mode, the first variant's
module-rule table is exactly [stylesheet `.css`, image, font, script,
scss stylesheet], the scss rule's chain is extraction loader, css-loader,
sass-loader (preprocessor only among the optional processors), the plugin
list includes the stylesheet-extraction plugin, and no chain uses the
inline style-loader. -/
theorem scss_prod_first_variant :
    ∃ c, (webpackConfig { MODE := some "production" }).head? = some c
      ∧ c.module.map Rule.test
          = ["\\.css$", "\\.(png|svg|jpg|jpeg|gif)$",
             "\\.(ttf|woff|eot|woff2)$", "\\.js$", "\\.s[ac]ss$"]
      ∧ (∀ r ∈ c.module, r.test = "\\.s[ac]ss$" →
            r.use = [UseEntry.str "MiniCssExtractPlugin.loader",
                     UseEntry.str "css-loader", UseEntry.str "sass-loader"])
      ∧ Plugin.miniCssExtract "[name].[hash].css" ∈ c.plugins
      ∧ ∀ r ∈ c.module, UseEntry.str "style-loader" ∉ r.use := by
  refine ⟨{ mainConfigOptionsB false 3000 with
              name := "html-scss-js"
              entry := ["@babel/polyfill", "./index.js"] }, ?_, ?_, ?_, ?_, ?_⟩ <;>
    decide

/-- C4: whenever both the ts and react flags are present, the appended
component-syntax rule (test `\.[jt]sx$`) exists and its babel preset list
mentions `@babel/preset-typescript` exactly once. -/
theorem react_ts_preset_once (d : Bool) (S : List String)
    (hts : S.contains "ts" = true) (hre : S.contains "react" = true) :
    (∃ r ∈ getModuleRules d S, r.test = "\\.[jt]sx$")
    ∧ ∀ r ∈ getModuleRules d S, r.test = "\\.[jt]sx$" →
        (rulePresets r).count "@babel/preset-typescript" = 1 := by
  unfold getModuleRules
  rw [hts, hre]
  generalize S.contains "tailwind" = tw
  generalize S.contains "css-modules" = cm
  generalize S.contains "scss" = sc
  generalize S.contains "xml" = xm
  generalize S.contains "csv" = cv
  revert d tw cm sc xm cv
  decide

/-- C4 witness: flags ts and react together give a `\.[jt]sx$` rule whose
presets list the typescript preset once. -/
theorem react_ts_preset_once_witness :
    (["ts", "react"].contains "ts" = true)
    ∧ (["ts", "react"].contains "react" = true)
    ∧ ((∃ r ∈ getModuleRules false ["ts", "react"], r.test = "\\.[jt]sx$")
       ∧ ∀ r ∈ getModuleRules false ["ts", "react"], r.test = "\\.[jt]sx$" →
           (rulePresets r).count "@babel/preset-typescript" = 1) :=
  ⟨by decide, by decide, react_ts_preset_once false ["ts", "react"] (by decide) (by decide)⟩

/-- C7: whenever both the scss and tailwind flags are present, the scss
stylesheet rule exists and its chain has `postcss-loader` strictly before
`sass-loader`. -/
theorem tailwind_before_sass (d : Bool) (S : List String)
    (hsc : S.contains "scss" = true) (htw : S.contains "tailwind" = true) :
    (∃ r ∈ getModuleRules d S, r.test = "\\.s[ac]ss$")
    ∧ ∀ r ∈ getModuleRules d S, r.test = "\\.s[ac]ss$" →
        UseEntry.str "postcss-loader" ∈ r.use
        ∧ UseEntry.str "sass-loader" ∈ r.use
        ∧ r.use.indexOf (UseEntry.str "postcss-loader")
            < r.use.indexOf (UseEntry.str "sass-loader") := by
  unfold getModuleRules
  rw [hsc, htw]
  generalize S.contains "css-modules" = cm
  generalize S.contains "xml" = xm
  generalize S.contains "csv" = cv
  generalize S.contains "ts" = ts
  generalize S.contains "react" = re
  revert d cm xm cv ts re
  decide

/-- C7 witness: flags scss and tailwind together put postcss-loader before
sass-loader in the scss rule's chain. -/
theorem tailwind_before_sass_witness :
    (["scss", "tailwind"].contains "scss" = true)
    ∧ (["scss", "tailwind"].contains "tailwind" = true)
    ∧ ((∃ r ∈ getModuleRules true ["scss", "tailwind"], r.test = "\\.s[ac]ss$")
       ∧ ∀ r ∈ getModuleRules true ["scss", "tailwind"], r.test = "\\.s[ac]ss$" →
           UseEntry.str "postcss-loader" ∈ r.use
           ∧ UseEntry.str "sass-loader" ∈ r.use
           ∧ r.use.indexOf (UseEntry.str "postcss-loader")
               < r.use.indexOf (UseEntry.str "sass-loader")) :=
  ⟨by decide, by decide, tailwind_before_sass true ["scss", "tailwind"] (by decide) (by decide)⟩

/-- An environment supplying only a port, used in concrete instances. -/
def envPort : Env := { PORT := some 8080 }

/-- An empty environment (no MODE, no PORT), used in concrete instances. -/
def envNone : Env := {}

/-- Every variant inherits its devServer port from the resolved port. -/
theorem devServer_port_of_mem (d : Bool) (p : Nat) (c : Config)
    (hc : c ∈ webpackConfigB d p) : c.devServer.port = p := by
  simp only [webpackConfigB, List.mem_cons, List.not_mem_nil, or_false] at hc
  rcases hc with rfl | rfl | rfl | rfl <;> rfl

/-- Every variant inherits its mode string from the derived mode flag. -/
theorem mode_of_mem (d : Bool) (p : Nat) (c : Config)
    (hc : c ∈ webpackConfigB d p) :
    c.mode = (if d then "development" else "production") := by
  simp only [webpackConfigB, List.mem_cons, List.not_mem_nil, or_false] at hc
  rcases hc with rfl | rfl | rfl | rfl <;> rfl

/-- Every variant inherits its optimization object from `getOptimization`. -/
theorem optimization_of_mem (d : Bool) (p : Nat) (c : Config)
    (hc : c ∈ webpackConfigB d p) : c.optimization = getOptimization d := by
  simp only [webpackConfigB, List.mem_cons, List.not_mem_nil, or_false] at hc
  rcases hc with rfl | rfl | rfl | rfl <;> rfl

/-- Every variant's module-rule table is `getModuleRules` at one of the
four hard-coded flag lists. -/
theorem module_of_mem (d : Bool) (p : Nat) (c : Config)
    (hc : c ∈ webpackConfigB d p) :
    c.module = getModuleRules d ["scss"]
    ∨ c.module = getModuleRules d ["scss", "tailwind"]
    ∨ c.module = getModuleRules d ["scss", "react", "ts", "css-modules"]
    ∨ c.module = getModuleRules d ["scss", "react", "ts", "css-modules", "tailwind"] := by
  simp only [webpackConfigB, List.mem_cons, List.not_mem_nil, or_false] at hc
  rcases hc with rfl | rfl | rfl | rfl
  · exact Or.inl rfl
  · exact Or.inr (Or.inl rfl)
  · exact Or.inr (Or.inr (Or.inl rfl))
  · exact Or.inr (Or.inr (Or.inr rfl))

/-- C8 counterexample: a supplied port of 0 is falsy for JavaScript `||`,
so the configuration's development-server port is 3000, not the supplied
value 0. -/
theorem port_zero_not_used :
    ((webpackConfig { PORT := some 0 }).map (fun c => c.devServer.port)
        = [3000, 3000, 3000, 3000])
    ∧ (webpackConfig { PORT := some 0 }).map (fun c => c.devServer.port)
        ≠ [0, 0, 0, 0] := by
  constructor <;> decide

/-- C8 (amended): every produced configuration's development-server port is
3000 when no port is supplied or when the supplied port is 0 (falsy under
`||`), and equals the supplied port whenever it is nonzero. -/
theorem port_resolution (e : Env) (c : Config) (hc : c ∈ webpackConfig e) :
    (e.PORT = none → c.devServer.port = 3000)
    ∧ (∀ p, e.PORT = some p → p ≠ 0 → c.devServer.port = p)
    ∧ (e.PORT = some 0 → c.devServer.port = 3000) := by
  unfold webpackConfig at hc
  have hport := devServer_port_of_mem _ _ _ hc
  refine ⟨fun h => ?_, fun p hp hne => ?_, fun h => ?_⟩ <;>
    rw [hport] <;> simp [portOrDefault, *]

/-- C8 witness: with a supplied port 8080 the first variant's server port is
8080. -/
theorem port_resolution_witness :
    (variant1 false 8080 ∈ webpackConfig envPort)
    ∧ ((envPort.PORT = none → (variant1 false 8080).devServer.port = 3000)
       ∧ (∀ p, envPort.PORT = some p → p ≠ 0 → (variant1 false 8080).devServer.port = p)
       ∧ (envPort.PORT = some 0 → (variant1 false 8080).devServer.port = 3000)) :=
  ⟨by decide, port_resolution envPort (variant1 false 8080) (by decide)⟩

/-- C9: any MODE other than the exact strings "development" and "dev"
(including an absent MODE) yields production behavior in every variant:
mode field "production", a minimizer present, and every style chain
starting with the extraction loader rather than the inline style-loader. -/
theorem nondev_mode_is_production (e : Env)
    (h1 : e.MODE ≠ some "development") (h2 : e.MODE ≠ some "dev")
    (c : Config) (hc : c ∈ webpackConfig e) :
    c.mode = "production"
    ∧ c.optimization.minimizer ≠ none
    ∧ ∀ r ∈ c.module, (r.test = "\\.css$" ∨ r.test = "\\.s[ac]ss$") →
        r.use.head? = some (UseEntry.str "MiniCssExtractPlugin.loader") := by
  have hd : isDev e = false := by
    simp [isDev, beq_eq_false_iff_ne, h1, h2]
  unfold webpackConfig at hc
  rw [hd] at hc
  refine ⟨?_, ?_, ?_⟩
  · rw [mode_of_mem _ _ _ hc]
    rfl
  · rw [optimization_of_mem _ _ _ hc]
    simp [getOptimization]
  · rcases module_of_mem _ _ _ hc with h | h | h | h <;> rw [h] <;> decide

/-- C9 witness: with an empty environment the first variant is a production
configuration. -/
theorem nondev_mode_is_production_witness :
    (envNone.MODE ≠ some "development")
    ∧ (envNone.MODE ≠ some "dev")
    ∧ (variant1 false 3000 ∈ webpackConfig envNone)
    ∧ ((variant1 false 3000).mode = "production"
       ∧ (variant1 false 3000).optimization.minimizer ≠ none
       ∧ ∀ r ∈ (variant1 false 3000).module,
           (r.test = "\\.css$" ∨ r.test = "\\.s[ac]ss$") →
             r.use.head? = some (UseEntry.str "MiniCssExtractPlugin.loader")) :=
  ⟨by decide, by decide, by decide,
   nondev_mode_is_production envNone (by decide) (by decide)
     (variant1 false 3000) (by decide)⟩

/-- C10: when the css-modules flag is present (list `S`) the chains of the
`.css` rule and of the scss rule use the modules-configured css-loader
(whose auto pattern is the `.module.` filename regex) instead of the plain
"css-loader" string; without the flag (list `T`, same remaining flags) the
plain string is used; and the flag appends no rule: both tables have the
same length. -/
theorem css_modules_rewires_loader (d : Bool) (S T : List String)
    (hS : S.contains "css-modules" = true)
    (hT : T.contains "css-modules" = false)
    (e1 : S.contains "tailwind" = T.contains "tailwind")
    (e2 : S.contains "scss" = T.contains "scss")
    (e3 : S.contains "xml" = T.contains "xml")
    (e4 : S.contains "csv" = T.contains "csv")
    (e5 : S.contains "ts" = T.contains "ts")
    (e6 : S.contains "react" = T.contains "react") :
    cssModulesOptions.auto = "\\.module\\.\\w+"
    ∧ (∀ r ∈ getModuleRules d S,
        (r.test = "\\.css$" ∨ r.test = "\\.s[ac]ss$") →
          UseEntry.cssLoaderWithModules cssModulesOptions ∈ r.use
          ∧ UseEntry.str "css-loader" ∉ r.use)
    ∧ (∀ r ∈ getModuleRules d T,
        (r.test = "\\.css$" ∨ r.test = "\\.s[ac]ss$") →
          UseEntry.str "css-loader" ∈ r.use
          ∧ UseEntry.cssLoaderWithModules cssModulesOptions ∉ r.use)
    ∧ (getModuleRules d S).length = (getModuleRules d T).length := by
  unfold getModuleRules
  rw [hS, hT, ← e1, ← e2, ← e3, ← e4, ← e5, ← e6]
  generalize S.contains "tailwind" = tw
  generalize S.contains "scss" = sc
  generalize S.contains "xml" = xm
  generalize S.contains "csv" = cv
  generalize S.contains "ts" = ts
  generalize S.contains "react" = re
  revert d tw sc xm cv ts re
  decide

/-- C10 witness: flags scss + css-modules versus scss alone. -/
theorem css_modules_rewires_loader_witness :
    (["scss", "css-modules"].contains "css-modules" = true)
    ∧ (["scss"].contains "css-modules" = false)
    ∧ (cssModulesOptions.auto = "\\.module\\.\\w+"
       ∧ (∀ r ∈ getModuleRules false ["scss", "css-modules"],
           (r.test = "\\.css$" ∨ r.test = "\\.s[ac]ss$") →
             UseEntry.cssLoaderWithModules cssModulesOptions ∈ r.use
             ∧ UseEntry.str "css-loader" ∉ r.use)
       ∧ (∀ r ∈ getModuleRules false ["scss"],
           (r.test = "\\.css$" ∨ r.test = "\\.s[ac]ss$") →
             UseEntry.str "css-loader" ∈ r.use
             ∧ UseEntry.cssLoaderWithModules cssModulesOptions ∉ r.use)
       ∧ (getModuleRules false ["scss", "css-modules"]).length
           = (getModuleRules false ["scss"]).length) :=
  ⟨by decide, by decide,
   css_modules_rewires_loader false ["scss", "css-modules"] ["scss"]
     (by decide) (by decide) (by decide) (by decide) (by decide) (by decide)
     (by decide) (by decide)⟩

end WebpackTemplate
